import Mathlib

/-!
A shallow embedding of `src/documents/views.py` from the paperless-ngx
fork under verification, together with theorems about the behaviour of
its request handlers.

The Django/DRF framework, the ORM and the entity models declared in
`documents/models.py` are external to the embedded module; the parts of
their behaviour that the handlers rely on (query-dict lookup, `int()`
parsing, list slicing, percent-encoding, SQL joins/`DISTINCT`/`COUNT`,
ordering) are modelled explicitly below, byte for byte where the
handlers depend on them.
-/

/-! ### Models of Python / Django primitives -/

/-- Lookup in a Django `QueryDict` (or a plain `dict`): the value of the
last pair carrying the key, `none` when the key is absent. -/
def pyLookup (params : List (String × String)) (key : String) : Option String :=
  ((params.reverse).find? (fun kv => kv.fst == key)).map (fun kv => kv.snd)

/-- Numeric value of a nonempty list of decimal digit characters. -/
def digitsVal (cs : List Char) : Option Nat :=
  if cs = [] then none
  else if cs.all (fun c => c.isDigit) then
    some (cs.foldl (fun a c => a * 10 + (c.toNat - 48)) 0)
  else none

/-- Python `int(s)` on a string: surrounding whitespace is stripped, an
optional sign precedes decimal digits; any other shape raises
`ValueError`, modelled as `none`.  (Digit-group underscores are not
modelled; no claim depends on them.) -/
def pyInt (s : String) : Option Int :=
  let cs := ((s.toList.dropWhile Char.isWhitespace).reverse.dropWhile Char.isWhitespace).reverse
  match cs with
  | [] => none
  | c :: rest =>
    if c = '-' then (digitsVal rest).map (fun n => -(n : Int))
    else if c = '+' then (digitsVal rest).map (fun n => (n : Int))
    else (digitsVal (c :: rest)).map (fun n => (n : Int))

/-- Normalisation of one slice bound, as Python does it: negative bounds
count from the end (clamped at 0), nonnegative bounds are clamped at the
length. -/
def pyBound (len : Nat) (i : Int) : Nat :=
  if i < 0 then ((len : Int) + i).toNat else min i.toNat len

/-- Python list slicing `l[start:stop]` (step 1). -/
def pySlice (l : List α) (start stop : Int) : List α :=
  (l.take (pyBound l.length stop)).drop (pyBound l.length start)

/-- The elements of `l` sitting at the (mathematical) indices
`start, start+1, …, stop-1`; there are no elements at negative indices.
This is the reading of "the elements at indices a through b" used by the
specification. -/
def specSlice (l : List α) (start stop : Int) : List α :=
  (List.range l.length).filterMap
    (fun (i : Nat) => if start ≤ (i : Int) ∧ (i : Int) < stop then l.get? i else none)

/-- ASCII lowercasing, for `istartswith`. -/
def lowerAscii (s : String) : String := String.mk (s.toList.map Char.toLower)

/-- Django `field__istartswith`: case-insensitive prefix test. -/
def istartswith (s pre : String) : Bool :=
  (lowerAscii pre).toList.isPrefixOf (lowerAscii s).toList

/-- `os.path.join(a, b)` for the relative second components used here. -/
def pyPathJoin (a b : String) : String :=
  if a = "" then b
  else if a.toList.getLast? = some '/' then a ++ b
  else a ++ "/" ++ b

/-- Python `str.rstrip()`: remove trailing whitespace. -/
def pyRstrip (s : String) : String :=
  String.mk ((s.toList.reverse.dropWhile Char.isWhitespace).reverse)

/-- UTF-8 encoding of one code point. -/
def utf8EncodeChar (c : Nat) : List Nat :=
  if c < 128 then [c]
  else if c < 2048 then [192 + c / 64, 128 + c % 64]
  else if c < 65536 then [224 + c / 4096, 128 + (c / 64) % 64, 128 + c % 64]
  else [240 + c / 262144, 128 + (c / 4096) % 64, 128 + (c / 64) % 64, 128 + c % 64]

/-- UTF-8 encoding of a string, as a byte list. -/
def utf8Bytes (s : String) : List Nat :=
  (s.toList.map Char.toNat).flatMap utf8EncodeChar

/-- Bytes left unescaped by `urllib.parse.quote` with its default
`safe="/"`: ASCII letters, digits, `_ . - ~` and `/`. -/
def quoteSafe (b : Nat) : Bool :=
  (65 ≤ b && b ≤ 90) || (97 ≤ b && b ≤ 122) || (48 ≤ b && b ≤ 57) ||
    b == 95 || b == 46 || b == 45 || b == 126 || b == 47

/-- One uppercase hexadecimal digit. -/
def hexDigitUpper (n : Nat) : Char :=
  if n < 10 then Char.ofNat (48 + n) else Char.ofNat (55 + n)

/-- One lowercase hexadecimal digit. -/
def hexDigitLower (n : Nat) : Char :=
  if n < 10 then Char.ofNat (48 + n) else Char.ofNat (87 + n)

/-- `urllib.parse.quote(s)`: percent-encode the UTF-8 bytes of `s`,
leaving the default safe characters alone. -/
def pyQuote (s : String) : String :=
  String.join ((utf8Bytes s).map (fun b =>
    if quoteSafe b then String.singleton (Char.ofNat b)
    else String.mk ['%', hexDigitUpper (b / 16), hexDigitUpper (b % 16)]))

/-- The single-quote character, kept out of string literals. -/
def sqChar : Char := Char.ofNat 39

/-- The double-quote character. -/
def dqChar : Char := Char.ofNat 34

/-- Escaping of one byte inside Python `repr` of a `bytes` object, with
quote character `q`. -/
def pyReprEscape (q : Nat) (b : Nat) : String :=
  if b = 92 then String.mk [Char.ofNat 92, Char.ofNat 92]
  else if b = q then String.mk [Char.ofNat 92, Char.ofNat q]
  else if b = 9 then String.mk [Char.ofNat 92, 't']
  else if b = 10 then String.mk [Char.ofNat 92, 'n']
  else if b = 13 then String.mk [Char.ofNat 92, 'r']
  else if b < 32 || 127 ≤ b then
    String.mk [Char.ofNat 92, 'x', hexDigitLower (b / 16), hexDigitLower (b % 16)]
  else String.singleton (Char.ofNat b)

/-- Python `str(b)` for a `bytes` object `b` (its `repr`): a `b` prefix,
a quote character (single, unless the content holds a single quote and
no double quote), the escaped content, and the closing quote.  This is
what an f-string interpolates for a `bytes` value. -/
def pyBytesRepr (bs : List Nat) : String :=
  let q : Nat := if bs.contains 39 && !(bs.contains 34) then 34 else 39
  "b" ++ String.singleton (Char.ofNat q)
    ++ String.join (bs.map (pyReprEscape q))
    ++ String.singleton (Char.ofNat q)

/-- Python `s.replace(",", "_")`. -/
def pyReplaceComma (s : String) : String :=
  String.mk (s.toList.map (fun c => if c = ',' then '_' else c))

/-- Python `s.encode("ascii", "ignore")`: the byte list of the code
points below 128, the rest dropped. -/
def asciiIgnore (s : String) : List Nat :=
  (s.toList.map Char.toNat).filter (fun b => b < 128)

/-- The same `ascii`/`ignore` filtering, kept as a string: the text the
specification expects inside the quoted `filename=` parameter. -/
def asciiIgnoreStr (s : String) : String :=
  String.mk (s.toList.filter (fun c => c.toNat < 128))

/-- SQL `COUNT` over an annotated column: counts the non-`NULL` rows. -/
def djangoCount (rows : List (Option Nat)) : Nat := (rows.filterMap id).length

/-- Insertion of an element into a list sorted ascending by `key`. -/
def insertByKey (key : α → Int) (x : α) : List α → List α
  | [] => [x]
  | y :: ys => if key x ≤ key y then x :: y :: ys else y :: insertByKey key x ys

/-- Stable insertion sort ascending by `key`: the model of the ORM's
`order_by` on a single column. -/
def sortByKey (key : α → Int) : List α → List α
  | [] => []
  | x :: xs => insertByKey key x (sortByKey key xs)

theorem mem_insertByKey (key : α → Int) (x : α) (l : List α) (y : α) :
    y ∈ insertByKey key x l ↔ y = x ∨ y ∈ l := by
  induction l with
  | nil => simp [insertByKey]
  | cons h t ih =>
    by_cases hc : key x ≤ key h
    · simp [insertByKey, hc]
    · simp only [insertByKey, if_neg hc, List.mem_cons, ih]
      tauto

theorem mem_sortByKey (key : α → Int) (l : List α) (y : α) :
    y ∈ sortByKey key l ↔ y ∈ l := by
  induction l with
  | nil => simp [sortByKey]
  | cons h t ih => simp [sortByKey, mem_insertByKey, ih]

theorem pairwise_insertByKey (key : α → Int) (x : α) (l : List α)
    (h : l.Pairwise (fun a b => key a ≤ key b)) :
    (insertByKey key x l).Pairwise (fun a b => key a ≤ key b) := by
  induction l with
  | nil => simp [insertByKey]
  | cons hd t ih =>
    by_cases hc : key x ≤ key hd
    · rw [insertByKey, if_pos hc]
      refine (List.pairwise_cons).2 ⟨?_, h⟩
      intro b hb
      rcases List.mem_cons.1 hb with rfl | hb
      · exact hc
      · exact le_trans hc (List.rel_of_pairwise_cons h hb)
    · rw [insertByKey, if_neg hc]
      have ht := (List.pairwise_cons).1 h
      refine (List.pairwise_cons).2 ⟨?_, ih ht.2⟩
      intro b hb
      rcases (mem_insertByKey key x t b).1 hb with rfl | hb
      · exact le_of_lt (lt_of_not_le hc)
      · exact ht.1 b hb

theorem pairwise_sortByKey (key : α → Int) (l : List α) :
    (sortByKey key l).Pairwise (fun a b => key a ≤ key b) := by
  induction l with
  | nil => simp [sortByKey]
  | cons h t ih => exact pairwise_insertByKey key h (sortByKey key t) ih

/-! ### The entity records the handlers read

The entity models live in `documents/models.py`, outside the embedded
module; the records below carry exactly the fields and relations the
handlers use, as the module and the specification reference them
(documents linked to a correspondent / document type / storage path by a
nullable foreign key, to tags by a many-to-many relation). -/

structure Document where
  id : Nat
  correspondent : Option Nat
  document_type : Option Nat
  storage_path : Option Nat
  tags : List Nat
  created : Int
  mime_type : String
  content : String
  has_archive_version : Bool
  storage_type_gpg : Bool
  source_path : String
  archive_path : String
  public_filename : String
  public_filename_archive : String
  deriving Repr, DecidableEq

structure Tag where
  id : Nat
  name : String
  is_inbox_tag : Bool
  deriving Repr, DecidableEq

structure Correspondent where
  id : Nat
  name : String
  deriving Repr, DecidableEq

structure DocumentType where
  id : Nat
  name : String
  deriving Repr, DecidableEq

structure StoragePath where
  id : Nat
  name : String
  path : String
  deriving Repr, DecidableEq

structure Note where
  id : Nat
  note : String
  created : Int
  document : Nat
  user : Option Nat
  deriving Repr, DecidableEq

structure NoteUser where
  id : Nat
  username : String
  first_name : String
  last_name : String
  deriving Repr, DecidableEq

structure PaperlessTask where
  id : Nat
  task_id : String
  acknowledged : Bool
  date_created : Int
  deriving Repr, DecidableEq

/-- The database the ORM queries run against. -/
structure DB where
  documents : List Document
  tags : List Tag
  correspondents : List Correspondent
  document_types : List DocumentType
  storage_paths : List StoragePath
  notes : List Note
  users : List NoteUser
  tasks : List PaperlessTask
  deriving Repr, DecidableEq

/-- The shape of a handler outcome: a success response, a success-status
response carrying an error body, an `Http404`, an
`HttpResponseBadRequest`, or an exception the handler does not catch. -/
inductive HOut (α : Type) where
  | ok (a : α)
  | error200 (msg : String)
  | notFound
  | badRequest (msg : String)
  | uncaught (exc : String)
  deriving Repr, DecidableEq

/-- The error shapes the specification allows: a handler result is a
success, a not-found response or a bad-request response. -/
def isErrorShapeOk : HOut α → Bool
  | .ok _ => true
  | .notFound => true
  | .badRequest _ => true
  | .error200 _ => false
  | .uncaught _ => false

/-! ### DocumentViewSet: file responses -/

/-- `Document.objects.get(id=pk)`, `none` for `DoesNotExist`. -/
def objectsGetDocument (db : DB) (pk : Nat) : Option Document :=
  db.documents.find? (fun d => d.id == pk)

/-- `DocumentViewSet.original_requested`: the request carries query
parameter `original` with exact value `true`. -/
def original_requested (params : List (String × String)) : Bool :=
  pyLookup params "original" == some "true"

/-- The file the response streams: the document's archive file or its
source (original) file. -/
inductive FileHandle where
  | archiveFile (path : String)
  | sourceFile (path : String)
  deriving Repr, DecidableEq

/-- The path a `FileHandle` reads. -/
def FileHandle.path : FileHandle → String
  | .archiveFile p => p
  | .sourceFile p => p

/-- True exactly on the archive branch. -/
def FileHandle.isArchive : FileHandle → Bool
  | .archiveFile _ => true
  | .sourceFile _ => false

/-- The `Content-Disposition` header `DocumentViewSet.file_response`
builds.  `filename_normalized` is a Python `bytes` value
(`str.encode` result); interpolating it into the f-string renders its
`repr`, i.e. `b` plus a quoted form.  `nfkd` is `unicodedata.normalize`
applied to `NFKD`, kept as a parameter of the embedding. -/
def content_disposition (nfkd : String → String) (disposition filename : String) : String :=
  let filename_normalized := asciiIgnore (nfkd (pyReplaceComma filename))
  let filename_encoded := pyQuote filename
  disposition ++ "; " ++ "filename=" ++ String.singleton dqChar
    ++ pyBytesRepr filename_normalized ++ String.singleton dqChar ++ "; "
    ++ "filename*=utf-8" ++ String.singleton sqChar ++ String.singleton sqChar
    ++ filename_encoded

/-- Modelled from the spec: the `Content-Disposition` header the claim
describes — the disposition, a quoted filename equal to the public
filename with commas replaced, NFKD-normalized, non-ASCII dropped, and
the RFC 5987 `filename*` parameter with the percent-encoded public
filename. -/
def spec_content_disposition (nfkd : String → String) (disposition filename : String) : String :=
  disposition ++ "; " ++ "filename=" ++ String.singleton dqChar
    ++ asciiIgnoreStr (nfkd (pyReplaceComma filename)) ++ String.singleton dqChar ++ "; "
    ++ "filename*=utf-8" ++ String.singleton sqChar ++ String.singleton sqChar
    ++ pyQuote filename

/-- An `HttpResponse` streaming a document file. -/
structure DocFileResponse where
  handle : FileHandle
  decrypted : Bool
  content_type : String
  content_disposition_header : String
  deriving Repr, DecidableEq

/-- The exceptions `file_response` can raise, both caught by its
callers. -/
inductive FileRespError where
  | doesNotExist
  | fileNotFound
  deriving Repr, DecidableEq

/-- `DocumentViewSet.file_response`.  `fs` tells which paths exist on
disk (reading a missing file raises `FileNotFoundError`). -/
def file_response (nfkd : String → String) (db : DB) (fs : String → Bool)
    (pk : Nat) (params : List (String × String)) (disposition : String) :
    Except FileRespError DocFileResponse :=
  match objectsGetDocument db pk with
  | none => .error .doesNotExist
  | some doc =>
    let serveArchive := !(original_requested params) && doc.has_archive_version
    let file_handle : FileHandle :=
      if serveArchive then .archiveFile doc.archive_path else .sourceFile doc.source_path
    let filename :=
      if serveArchive then doc.public_filename_archive else doc.public_filename
    let mime_type :=
      if serveArchive then "application/pdf"
      else if (doc.mime_type == "application/csv" || doc.mime_type == "text/csv")
              && disposition == "inline" then "text/plain"
      else doc.mime_type
    if fs file_handle.path then
      .ok { handle := file_handle
            decrypted := doc.storage_type_gpg
            content_type := mime_type
            content_disposition_header := content_disposition nfkd disposition filename }
    else .error .fileNotFound

/-- `DocumentViewSet.preview`: `file_response` with `inline`
disposition, `FileNotFoundError` and `DoesNotExist` turned into
`Http404`. -/
def DocumentViewSet_preview (nfkd : String → String) (db : DB) (fs : String → Bool)
    (pk : Nat) (params : List (String × String)) : HOut DocFileResponse :=
  match file_response nfkd db fs pk params "inline" with
  | .ok r => .ok r
  | .error _ => .notFound

/-- `DocumentViewSet.download`: `file_response` with `attachment`
disposition, the same exceptions turned into `Http404`. -/
def DocumentViewSet_download (nfkd : String → String) (db : DB) (fs : String → Bool)
    (pk : Nat) (params : List (String × String)) : HOut DocFileResponse :=
  match file_response nfkd db fs pk params "attachment" with
  | .ok r => .ok r
  | .error _ => .notFound

/-- C1: For every document served by `DocumentViewSet.file_response`,
the `Content-Disposition` header was claimed to consist of the
disposition type, a quoted filename equal to the public filename with
commas replaced by underscores, NFKD-normalized with non-ASCII dropped,
and an RFC 5987 `filename*` parameter with the percent-encoded public
filename.  The code instead interpolates the `bytes` value returned by
`str.encode` straight into the f-string, so the quoted filename is the
Python `bytes` repr (`b` plus a single-quoted form) of that text: for
the public filename `a.pdf` (fixed by NFKD, which is the identity on
ASCII) the header the code builds differs from the claimed header, the
quoted part being the five extra-wrapped characters rather than
`a.pdf`.  This contradicts the intent documented in the code's own
comment (an RFC 5987 header with an ASCII fallback filename). -/
theorem C1_content_disposition_bytes_repr (nfkd : String → String)
    (h : nfkd "a.pdf" = "a.pdf") :
    content_disposition nfkd "attachment" "a.pdf" =
      "attachment; filename=" ++ String.singleton dqChar ++ "b"
        ++ String.singleton sqChar ++ "a.pdf" ++ String.singleton sqChar
        ++ String.singleton dqChar ++ "; filename*=utf-8"
        ++ String.singleton sqChar ++ String.singleton sqChar ++ "a.pdf" ∧
    content_disposition nfkd "attachment" "a.pdf" ≠
      spec_content_disposition nfkd "attachment" "a.pdf" := by
  have hr : pyReplaceComma "a.pdf" = "a.pdf" := by decide
  rw [content_disposition, spec_content_disposition, hr, h]
  exact ⟨by decide, by decide⟩

/-- Witness for C1 at the identity normalizer: the header built for the
ASCII public filename `a.pdf` is not the header the specification
claims. -/
theorem C1_content_disposition_bytes_repr_witness :
    content_disposition id "attachment" "a.pdf" ≠
      spec_content_disposition id "attachment" "a.pdf" :=
  (C1_content_disposition_bytes_repr id rfl).2


/-- A document with an archive version, used to instantiate theorems on
`file_response`. -/
def exDoc8 : Document :=
  { id := 1, correspondent := none, document_type := none,
    storage_path := none, tags := [], created := 0,
    mime_type := "application/pdf", content := "",
    has_archive_version := true, storage_type_gpg := false,
    source_path := "srcfile", archive_path := "archfile",
    public_filename := "p.pdf", public_filename_archive := "p.pdf" }

/-- A one-document database around `exDoc8`. -/
def exDb8 : DB :=
  { documents := [exDoc8], tags := [], correspondents := [],
    document_types := [], storage_paths := [], notes := [],
    users := [], tasks := [] }

/-- The response `file_response` builds for `exDoc8` with `inline`
disposition and no query parameters. -/
def exResp8 : DocFileResponse :=
  { handle := .archiveFile "archfile", decrypted := false,
    content_type := "application/pdf",
    content_disposition_header := content_disposition id "inline" "p.pdf" }

/-- C8: `DocumentViewSet.file_response` serves the archive version
exactly when the document has one and the request does not carry query
parameter `original` with exact value `true`; the archive version is
always served as `application/pdf`, and an original of mime type
`application/csv` or `text/csv` requested with `inline` disposition is
served as `text/plain`. -/
theorem C8_file_response_archive_rule
    (nfkd : String → String) (db : DB) (fs : String → Bool) (pk : Nat)
    (params : List (String × String)) (disposition : String)
    (doc : Document) (resp : DocFileResponse)
    (hdoc : objectsGetDocument db pk = some doc)
    (hok : file_response nfkd db fs pk params disposition = .ok resp) :
    (resp.handle.isArchive = true ↔
        (doc.has_archive_version = true ∧ ¬ pyLookup params "original" = some "true")) ∧
    (resp.handle.isArchive = true →
        resp.content_type = "application/pdf" ∧ resp.handle = .archiveFile doc.archive_path) ∧
    (resp.handle.isArchive = false →
        (doc.mime_type = "application/csv" ∨ doc.mime_type = "text/csv") →
        disposition = "inline" → resp.content_type = "text/plain") := by
  unfold file_response at hok
  rw [hdoc] at hok
  dsimp only at hok
  by_cases harch : (!(original_requested params) && doc.has_archive_version) = true
  · rw [if_pos harch, if_pos harch, if_pos harch] at hok
    split at hok
    · injection hok with h
      subst h
      dsimp only [FileHandle.isArchive]
      rw [Bool.and_eq_true] at harch
      have hor : ¬ pyLookup params "original" = some "true" := by
        intro hc
        rw [original_requested, hc] at harch
        simp at harch
      exact ⟨⟨fun _ => ⟨harch.2, hor⟩, fun _ => rfl⟩,
             fun _ => ⟨rfl, rfl⟩, fun hfalse => absurd hfalse (by simp)⟩
    · cases hok
  · rw [if_neg harch, if_neg harch, if_neg harch] at hok
    split at hok
    · injection hok with h
      subst h
      dsimp only [FileHandle.isArchive]
      refine ⟨⟨fun htr => absurd htr (by simp), fun hand => ?_⟩,
              fun htr => absurd htr (by simp), fun _ hmime hdisp => ?_⟩
      · exfalso
        apply harch
        rw [Bool.and_eq_true, Bool.not_eq_true']
        refine ⟨?_, hand.1⟩
        rw [original_requested]
        exact beq_eq_false_iff_ne.2 hand.2
      · subst hdisp
        rcases hmime with h | h <;> simp [h]
    · cases hok

/-- Witness for C8: `file_response` on `exDb8` with no `original`
parameter serves the archive file of `exDoc8` as `application/pdf`. -/
theorem C8_file_response_archive_rule_witness :
    file_response id exDb8 (fun _ => true) 1 [] "inline" = .ok exResp8 ∧
    exResp8.handle.isArchive = true ∧
    exResp8.content_type = "application/pdf" := by
  have h := C8_file_response_archive_rule id exDb8 (fun _ => true) 1 [] "inline"
    exDoc8 exResp8 (by decide) rfl
  have ha : exResp8.handle.isArchive = true := h.1.2 ⟨rfl, by decide⟩
  exact ⟨rfl, ha, (h.2.1 ha).1⟩

/-! ### LogViewSet -/

/-- `LogViewSet.log_files`. -/
def LogViewSet_log_files : List String := ["paperless", "mail"]

/-- `LogViewSet.get_log_filename`: `os.path.join(settings.LOGGING_DIR,
f"{log}.log")`; the logging directory (a Django setting defined outside
the module) is a parameter. -/
def get_log_filename (loggingDir log : String) : String :=
  pyPathJoin loggingDir (log ++ ".log")

/-- Outcome of `LogViewSet.retrieve`: `Http404` or the response listing
the log lines. -/
inductive LogResult where
  | notFound
  | lines (ls : List String)
  deriving Repr, DecidableEq

/-- The retrieve outcome together with the files the handler opened,
for auditing which paths the handler can touch.  `fs` maps an existing
file path to its lines. -/
structure LogRetrieveTrace where
  result : LogResult
  opened : List String
  deriving Repr, DecidableEq

/-- `LogViewSet.retrieve`: 404 unless `pk` names one of the two fixed
log files; 404 when the file does not exist; otherwise the
right-stripped lines of that file. -/
def LogViewSet_retrieve (loggingDir : String) (fs : String → Option (List String))
    (pk : String) : LogRetrieveTrace :=
  if LogViewSet_log_files.contains pk then
    match fs (get_log_filename loggingDir pk) with
    | none => { result := .notFound, opened := [] }
    | some content =>
        { result := .lines (content.map pyRstrip),
          opened := [get_log_filename loggingDir pk] }
  else { result := .notFound, opened := [] }

/-- C9: `LogViewSet.retrieve` responds not-found for every `pk` other
than `paperless` and `mail`, and when the log file does not exist; the
only files it ever opens are `LOGGING_DIR/paperless.log` and
`LOGGING_DIR/mail.log`, whatever the request input. -/
theorem C9_log_retrieve_safety (loggingDir : String)
    (fs : String → Option (List String)) (pk : String) :
    (¬ (pk = "paperless" ∨ pk = "mail") →
        (LogViewSet_retrieve loggingDir fs pk).result = .notFound) ∧
    (fs (get_log_filename loggingDir pk) = none →
        (LogViewSet_retrieve loggingDir fs pk).result = .notFound) ∧
    (∀ p ∈ (LogViewSet_retrieve loggingDir fs pk).opened,
        p = get_log_filename loggingDir "paperless" ∨
        p = get_log_filename loggingDir "mail") := by
  unfold LogViewSet_retrieve
  by_cases hc : LogViewSet_log_files.contains pk
  · rw [if_pos hc]
    have hpm : pk = "paperless" ∨ pk = "mail" := by
      simpa [LogViewSet_log_files] using hc
    refine ⟨fun hn => absurd hpm hn, fun hfs => ?_, fun p hp => ?_⟩
    · rw [hfs]
    · cases hfsv : fs (get_log_filename loggingDir pk) with
      | none => rw [hfsv] at hp; simp at hp
      | some c =>
          rw [hfsv] at hp
          simp only [List.mem_singleton] at hp
          subst hp
          rcases hpm with h | h
          · left; rw [h]
          · right; rw [h]
  · rw [if_neg hc]
    exact ⟨fun _ => rfl, fun _ => rfl, fun p hp => by simp at hp⟩

/-- Witness for C9: an unknown log name is rejected, a missing file is
rejected, and a successful read opens only the `paperless` log. -/
theorem C9_log_retrieve_safety_witness :
    (LogViewSet_retrieve "/logs" (fun _ => none) "other").result = .notFound ∧
    (LogViewSet_retrieve "/logs" (fun _ => none) "paperless").result = .notFound ∧
    ("/logs/paperless.log" = get_log_filename "/logs" "paperless" ∨
     "/logs/paperless.log" = get_log_filename "/logs" "mail") := by
  refine ⟨(C9_log_retrieve_safety "/logs" (fun _ => none) "other").1 (by decide),
          (C9_log_retrieve_safety "/logs" (fun _ => none) "paperless").2.1 rfl,
          (C9_log_retrieve_safety "/logs" (fun _ => some []) "paperless").2.2
            "/logs/paperless.log" (by decide)⟩

/-! ### TasksViewSet -/

/-- `TasksViewSet.get_queryset`: unacknowledged tasks ordered by
`date_created` and reversed; when a `task_id` query parameter is given,
the queryset is replaced wholesale by a filter on that `task_id`. -/
def TasksViewSet_get_queryset (db : DB) (params : List (String × String)) :
    List PaperlessTask :=
  let queryset :=
    (sortByKey (fun t => t.date_created) (db.tasks.filter (fun t => !t.acknowledged))).reverse
  match pyLookup params "task_id" with
  | none => queryset
  | some task_id => db.tasks.filter (fun t => t.task_id == task_id)

/-- C10: with no `task_id` query parameter, `TasksViewSet` returns
exactly the tasks with `acknowledged = false`, ordered by `date_created`
descending; with a `task_id` parameter it instead returns every task
with that `task_id`, acknowledged or not, the unacknowledged filter and
the ordering discarded. -/
theorem C10_tasks_queryset (db : DB) (params : List (String × String)) :
    (pyLookup params "task_id" = none →
      (∀ t, t ∈ TasksViewSet_get_queryset db params ↔
          (t ∈ db.tasks ∧ t.acknowledged = false)) ∧
      (TasksViewSet_get_queryset db params).Pairwise
        (fun a b => b.date_created ≤ a.date_created)) ∧
    (∀ tid, pyLookup params "task_id" = some tid →
      TasksViewSet_get_queryset db params = db.tasks.filter (fun t => t.task_id == tid) ∧
      (∀ t, t ∈ TasksViewSet_get_queryset db params ↔
          (t ∈ db.tasks ∧ t.task_id = tid))) := by
  constructor
  · intro hnone
    unfold TasksViewSet_get_queryset
    rw [hnone]
    constructor
    · intro t
      rw [List.mem_reverse, mem_sortByKey, List.mem_filter]
      simp [Bool.not_eq_true']
    · rw [List.pairwise_reverse]
      exact pairwise_sortByKey _ _
  · intro tid hsome
    unfold TasksViewSet_get_queryset
    rw [hsome]
    refine ⟨rfl, fun t => ?_⟩
    rw [List.mem_filter]
    simp [beq_iff_eq]

/-- The unacknowledged example task. -/
def exTaskA : PaperlessTask := { id := 1, task_id := "a", acknowledged := false, date_created := 5 }

/-- The acknowledged example task. -/
def exTaskB : PaperlessTask := { id := 2, task_id := "b", acknowledged := true, date_created := 3 }

/-- A database with the two example tasks. -/
def exDb10 : DB :=
  { documents := [], tags := [], correspondents := [], document_types := [],
    storage_paths := [], notes := [], users := [], tasks := [exTaskA, exTaskB] }

/-- Witness for C10: with no parameter the unacknowledged task is in the
queryset; with `task_id=b` the acknowledged task is returned although it
is acknowledged. -/
theorem C10_tasks_queryset_witness :
    exTaskA ∈ TasksViewSet_get_queryset exDb10 [] ∧
    exTaskB ∈ TasksViewSet_get_queryset exDb10 [("task_id", "b")] := by
  have h1 := ((C10_tasks_queryset exDb10 []).1 rfl).1 exTaskA
  have h2 := ((C10_tasks_queryset exDb10 [("task_id", "b")]).2 "b" rfl).2 exTaskB
  exact ⟨h1.2 ⟨by decide, rfl⟩, h2.2 ⟨by decide, rfl⟩⟩

/-! ### DocumentViewSet.notes, BulkEditView, SearchAutoCompleteView -/

/-- The HTTP methods the `notes` action accepts. -/
inductive HttpMethod where
  | get
  | post
  | delete
  deriving Repr, DecidableEq

/-- One entry of the JSON list `getNotes` builds. -/
structure NoteJson where
  id : Nat
  note : String
  created : Int
  user_id : Nat
  username : String
  first_name : String
  last_name : String
  deriving Repr, DecidableEq

/-- The body of `DocumentViewSet.getNotes`'s list comprehension:
`c.user.id` on a note without a user raises `AttributeError`, and a
dangling user id raises on the user lookup; otherwise each note maps to
its JSON entry. -/
def notesToJson (users : List NoteUser) : List Note → Except String (List NoteJson)
  | [] => .ok []
  | c :: rest =>
    match c.user with
    | none => .error "AttributeError"
    | some uid =>
      match users.find? (fun u => u.id == uid) with
      | none => .error "User.DoesNotExist"
      | some u =>
        match notesToJson users rest with
        | .error e => .error e
        | .ok js =>
            .ok ({ id := c.id, note := c.note, created := c.created,
                   user_id := u.id, username := u.username,
                   first_name := u.first_name, last_name := u.last_name } :: js)

/-- `DocumentViewSet.getNotes`: the document's notes ordered by
`created` descending, rendered to JSON. -/
def getNotes (db : DB) (docId : Nat) : Except String (List NoteJson) :=
  notesToJson db.users
    ((sortByKey (fun n => n.created) (db.notes.filter (fun n => n.document == docId))).reverse)

/-- The next autoincremented note primary key. -/
def nextNoteId (db : DB) : Nat := (db.notes.map (fun n => n.id)).foldr max 0 + 1

/-- `DocumentViewSet.notes`.  `data` is the request body dict,
`getParams` the query dict, `now` the creation timestamp the database
assigns.  GET and POST wrap their work in `try/except Exception` blocks
that log and return a `Response` with an error body (a success-status
response); DELETE runs bare: a missing or non-numeric `id` parameter
and an unknown note id raise out of the handler. -/
def DocumentViewSet_notes (db : DB) (method : HttpMethod) (currentUser : Nat)
    (pk : Nat) (data getParams : List (String × String)) (now : Int) :
    HOut (List NoteJson) :=
  match objectsGetDocument db pk with
  | none => .notFound
  | some _ =>
    match method with
    | .get =>
      match getNotes db pk with
      | .ok ns => .ok ns
      | .error _ => .error200 "Error retreiving notes, check logs for more detail."
    | .post =>
      match pyLookup data "note" with
      | none => .error200 "Error saving note, check logs for more detail."
      | some noteText =>
        let db2 := { db with notes :=
          db.notes ++ [{ id := nextNoteId db, note := noteText, created := now,
                         document := pk, user := some currentUser }] }
        match getNotes db2 pk with
        | .ok ns => .ok ns
        | .error _ => .error200 "Error saving note, check logs for more detail."
    | .delete =>
      match pyLookup getParams "id" with
      | none => .uncaught "TypeError"
      | some s =>
        match pyInt s with
        | none => .uncaught "ValueError"
        | some i =>
          match db.notes.find? (fun n => ((n.id : Int)) == i) with
          | none => .uncaught "Note.DoesNotExist"
          | some note =>
            let db2 := { db with notes := db.notes.filter (fun m => m.id != note.id) }
            match getNotes db2 pk with
            | .ok ns => .ok ns
            | .error e => .uncaught e

/-- `BulkEditView.post`: the serializer validates the body
(`is_valid(raise_exception=True)`, rendered by the framework as a bad
request); the selected bulk-edit method runs inside `try/except`, any
exception becoming `HttpResponseBadRequest(str(e))`. -/
def BulkEditView_post {α : Type} (validated : Except String α)
    (run : α → Except String Nat) : HOut Nat :=
  match validated with
  | .error e => .badRequest e
  | .ok d =>
    match run d with
    | .error e => .badRequest e
    | .ok r => .ok r

/-- `SearchAutoCompleteView.get`: `term` is required; `limit` is fed
raw to `int()` (which raises on a non-numeric string) and rejected only
when nonpositive; `autocompleteIndex` stands for the external search
index. -/
def SearchAutoCompleteView_get (params : List (String × String))
    (autocompleteIndex : String → Int → List String) : HOut (List String) :=
  match pyLookup params "term" with
  | none => .badRequest "Term required"
  | some term =>
    match pyLookup params "limit" with
    | none => .ok (autocompleteIndex term 10)
    | some s =>
      match pyInt s with
      | none => .uncaught "ValueError"
      | some limit =>
        if limit ≤ 0 then .badRequest "Invalid limit"
        else .ok (autocompleteIndex term limit)

/-- C2 (counterexample): `DocumentViewSet.notes` on a POST without a
`note` body key reports the failure as a success-status response
carrying an error body — neither a not-found nor a bad-request
response, refuting the claim that every error outcome takes one of
those two shapes. -/
theorem C2_counterexample :
    isErrorShapeOk (DocumentViewSet_notes exDb8 .post 1 1 [] [] 0) = false ∧
    DocumentViewSet_notes exDb8 .post 1 1 [] [] 0 =
      .error200 "Error saving note, check logs for more detail." := by
  exact ⟨rfl, rfl⟩

/-- C2 (amended): the file-serving actions report their errors only as
not-found responses and `BulkEditView.post` only as bad-request
responses, but `DocumentViewSet.notes` reports save failures as
success-status responses carrying an error body and its DELETE path
raises uncaught exceptions on a missing `id` parameter. -/
theorem C2_amended_error_shapes :
    (∀ (nfkd : String → String) (db : DB) (fs : String → Bool) (pk : Nat)
        (params : List (String × String)),
        isErrorShapeOk (DocumentViewSet_preview nfkd db fs pk params) = true) ∧
    (∀ (nfkd : String → String) (db : DB) (fs : String → Bool) (pk : Nat)
        (params : List (String × String)),
        isErrorShapeOk (DocumentViewSet_download nfkd db fs pk params) = true) ∧
    (∀ (α : Type) (v : Except String α) (run : α → Except String Nat),
        isErrorShapeOk (BulkEditView_post v run) = true) ∧
    isErrorShapeOk (DocumentViewSet_notes exDb8 .post 1 1 [] [] 0) = false ∧
    DocumentViewSet_notes exDb8 .delete 1 1 [] [] 0 = .uncaught "TypeError" := by
  refine ⟨?_, ?_, ?_, rfl, rfl⟩
  · intro nfkd db fs pk params
    unfold DocumentViewSet_preview
    cases file_response nfkd db fs pk params "inline" <;> rfl
  · intro nfkd db fs pk params
    unfold DocumentViewSet_download
    cases file_response nfkd db fs pk params "attachment" <;> rfl
  · intro α v run
    unfold BulkEditView_post
    cases v with
    | error e => rfl
    | ok d => cases hr : run d <;> simp [hr, isErrorShapeOk]

/-! ### FilesAndFoldersViewSet -/

/-- An item of the combined folder/file listing, tagged the way the
handler tags serialized items (`type: folder` / `type: file`). -/
inductive FFItem where
  | folder (sp : StoragePath)
  | file (d : Document)
  deriving Repr, DecidableEq

/-- The response payload of `FilesAndFoldersViewSet.list`. -/
structure FFResponse where
  count : Nat
  next : Option Nat
  previous : Option Nat
  results : List FFItem
  parentStoragePath : Option StoragePath
  deriving Repr, DecidableEq

/-- `order_by(ordering)` on documents for the orderings this endpoint
uses (its default is `-created`); other column names are left to the
ORM and not modelled — no claim depends on them. -/
def documentsOrderBy (ordering : String) (docs : List Document) : List Document :=
  if ordering == "-created" then (sortByKey (fun d => d.created) docs).reverse
  else if ordering == "created" then sortByKey (fun d => d.created) docs
  else docs

/-- `int(request.query_params.get('page', 1))`: default 1, a present
parameter fed raw to `int()`. -/
def ffPage (params : List (String × String)) : Except String Int :=
  match pyLookup params "page" with
  | none => .ok 1
  | some s => match pyInt s with | none => .error "ValueError" | some i => .ok i

/-- `int(request.query_params.get('page_size', 100))`: default 100. -/
def ffPageSize (params : List (String × String)) : Except String Int :=
  match pyLookup params "page_size" with
  | none => .ok 100
  | some s => match pyInt s with | none => .error "ValueError" | some i => .ok i

/-- Resolution of `parent_storage_path_id`: absent or empty (falsy)
means the root listing; otherwise `StoragePath.objects.get(id=...)`
coerces the raw string and raises `ValueError` or `DoesNotExist` out of
the handler. -/
def ffParent (db : DB) (params : List (String × String)) :
    Except String (Option StoragePath) :=
  match pyLookup params "parent_storage_path_id" with
  | none => .ok none
  | some pid =>
    if pid = "" then .ok none
    else
      match pyInt pid with
      | none => .error "ValueError"
      | some i =>
        match db.storage_paths.find? (fun sp => ((sp.id : Int)) == i) with
        | none => .error "StoragePath.DoesNotExist"
        | some parent => .ok (some parent)

/-- The folders of the listing: under a parent, the storage paths whose
path extends the parent's (case-insensitively), the parent excluded;
at the root, the storage paths whose path holds no `/`. -/
def ffFolders (db : DB) (parent : Option StoragePath) : List StoragePath :=
  match parent with
  | some p => db.storage_paths.filter (fun f => istartswith f.path p.path && f.id != p.id)
  | none => db.storage_paths.filter (fun f => !(f.path.toList.contains '/'))

/-- The files of the listing: the documents of the parent storage path
(or with no storage path, at the root), ordered. -/
def ffFiles (db : DB) (ordering : String) (parent : Option StoragePath) : List Document :=
  match parent with
  | some p => documentsOrderBy ordering (db.documents.filter (fun d => d.storage_path == some p.id))
  | none => documentsOrderBy ordering (db.documents.filter (fun d => d.storage_path == none))

/-- `combined = folders + files`, tagged as the serializer loop tags
them. -/
def ffCombined (db : DB) (ordering : String) (parent : Option StoragePath) : List FFItem :=
  (ffFolders db parent).map FFItem.folder ++ (ffFiles db ordering parent).map FFItem.file

/-- `FilesAndFoldersViewSet.list`: parse `page`, `page_size` and the
parent, build the combined list, slice it with Python slicing at
`[(page-1)*page_size : page*page_size]`, and answer with the full count
and `next = previous = null`. -/
def FilesAndFoldersViewSet_list (db : DB) (params : List (String × String)) :
    HOut FFResponse :=
  match ffPage params with
  | .error e => .uncaught e
  | .ok page =>
    match ffPageSize params with
    | .error e => .uncaught e
    | .ok page_size =>
      match ffParent db params with
      | .error e => .uncaught e
      | .ok parent =>
        let ordering := (pyLookup params "ordering").getD "-created"
        let combined := ffCombined db ordering parent
        .ok { count := combined.length, next := none, previous := none,
              results := pySlice combined ((page - 1) * page_size) (page * page_size),
              parentStoragePath := parent }

/-- `specSlice` at `Nat` bounds. -/
def specSliceAux (l : List α) (a b : Nat) : List α :=
  (List.range l.length).filterMap (fun i => if a ≤ i ∧ i < b then l.get? i else none)

theorem specSliceAux_eq_take_drop (l : List α) :
    ∀ a b : Nat, specSliceAux l a b = (l.take b).drop a := by
  induction l with
  | nil => intro a b; simp [specSliceAux]
  | cons x xs ih =>
    intro a b
    have hstep : specSliceAux (x :: xs) a b =
        (if a ≤ 0 ∧ 0 < b then [x] else []) ++ specSliceAux xs (a - 1) (b - 1) := by
      rw [specSliceAux, List.length_cons, List.range_succ_eq_map, List.filterMap_cons,
        List.filterMap_map]
      have hcomp : ((fun i => if a ≤ i ∧ i < b then (x :: xs).get? i else none) ∘ Nat.succ)
          = (fun i => if a - 1 ≤ i ∧ i < b - 1 then xs.get? i else none) := by
        funext i
        simp only [Function.comp_apply, List.get?_cons_succ]
        by_cases h1 : a ≤ i + 1 ∧ i + 1 < b
        · rw [if_pos h1, if_pos (by omega)]
        · rw [if_neg h1, if_neg (by omega)]
      rw [hcomp]
      by_cases h0 : a ≤ 0 ∧ 0 < b
      · rw [if_pos h0]
        simp only [List.get?_cons_zero, if_pos h0]
        rfl
      · rw [if_neg h0]
        simp only [List.get?_cons_zero, if_neg h0]
        rfl
    rw [hstep, ih]
    rcases a with _ | k <;> rcases b with _ | m <;>
      simp [Nat.succ_sub_one]

theorem specSlice_eq_aux (l : List α) (a b : Nat) :
    specSlice l (a : Int) (b : Int) = specSliceAux l a b := by
  unfold specSlice specSliceAux
  simp only [Nat.cast_le, Nat.cast_lt]

/-- On nonnegative bounds, Python slicing returns exactly the elements
at the requested indices. -/
theorem pySlice_eq_specSlice (l : List α) (a b : Int) (ha : 0 ≤ a) (hb : 0 ≤ b) :
    pySlice l a b = specSlice l a b := by
  obtain ⟨a1, rfl⟩ := Int.eq_ofNat_of_zero_le ha
  obtain ⟨b1, rfl⟩ := Int.eq_ofNat_of_zero_le hb
  rw [specSlice_eq_aux, specSliceAux_eq_take_drop]
  unfold pySlice pyBound
  rw [if_neg (by omega : ¬ ((b1 : Int)) < 0),
      if_neg (by omega : ¬ ((a1 : Int)) < 0)]
  simp only [Int.toNat_ofNat]
  rw [← List.take_take, List.take_length]
  by_cases hal : a1 ≤ l.length
  · rw [min_eq_left hal]
  · have h3 : min a1 l.length = l.length := by omega
    rw [h3, List.drop_of_length_le (by rw [List.length_take]; omega),
        List.drop_of_length_le (by rw [List.length_take]; omega)]

/-- Example root folder `x`. -/
def exSp1 : StoragePath := { id := 1, name := "x", path := "x" }

/-- Example root folder `y`. -/
def exSp2 : StoragePath := { id := 2, name := "y", path := "y" }

/-- A database with two root folders and no documents. -/
def exDb4 : DB :=
  { documents := [], tags := [], correspondents := [], document_types := [],
    storage_paths := [exSp1, exSp2], notes := [], users := [], tasks := [] }

/-- C4 (counterexample): a list request with `page=-1` and
`page_size=1` on a two-folder root listing.  The claimed result — the
elements at indices `(p-1)*s` through `p*s-1`, i.e. `-2` through `-2`,
of which there are none — is empty, but the handler returns a one-item
page because Python interprets the negative slice bounds relative to
the end of the list. -/
theorem C4_counterexample :
    FilesAndFoldersViewSet_list exDb4 [("page", "-1"), ("page_size", "1")] =
      .ok { count := 2, next := none, previous := none,
            results := [FFItem.folder exSp1],
            parentStoragePath := none } ∧
    specSlice (ffCombined exDb4 "-created" none) (-2) (-1) = ([] : List FFItem) ∧
    [FFItem.folder exSp1] ≠ ([] : List FFItem) := by
  refine ⟨by decide, by decide, by decide⟩

/-- C4 (amended): for every list request whose `page` parses to `p ≥ 1`
and `page_size` to `s ≥ 0` and whose parent resolves, the results are
exactly the elements at indices `(p-1)*s` through `p*s-1` of the
folders-then-files concatenation, the `count` field is the full length
of that concatenation (not the page size), and `next` and `previous`
are always null; pages `p ≤ 0` instead follow Python's negative-index
slicing. -/
theorem C4_amended_pagination (db : DB) (params : List (String × String))
    (p s : Int) (parent : Option StoragePath)
    (hp : ffPage params = .ok p) (hs : ffPageSize params = .ok s)
    (hpar : ffParent db params = .ok parent) (hp1 : 1 ≤ p) (hs0 : 0 ≤ s) :
    FilesAndFoldersViewSet_list db params =
      .ok { count := (ffCombined db ((pyLookup params "ordering").getD "-created") parent).length,
            next := none, previous := none,
            results := specSlice
              (ffCombined db ((pyLookup params "ordering").getD "-created") parent)
              ((p - 1) * s) (p * s),
            parentStoragePath := parent } := by
  unfold FilesAndFoldersViewSet_list
  rw [hp, hs, hpar]
  dsimp only
  rw [pySlice_eq_specSlice _ _ _ (mul_nonneg (by omega) hs0) (mul_nonneg (by omega) hs0)]

/-- Witness for C4 at `page=2`, `page_size=1`: the second page of the
two-folder root listing is the second folder, with the full count and
null page links. -/
theorem C4_amended_pagination_witness :
    FilesAndFoldersViewSet_list exDb4 [("page", "2"), ("page_size", "1")] =
      .ok { count := 2, next := none, previous := none,
            results := [FFItem.folder exSp2],
            parentStoragePath := none } := by
  have h := C4_amended_pagination exDb4 [("page", "2"), ("page_size", "1")]
    2 1 none rfl rfl rfl (by decide) (by decide)
  rw [h]
  decide

/-- C3 (counterexample): `SearchAutoCompleteView.get` feeds the raw
`limit` query parameter to `int()`: on `limit=x` the handler raises an
uncaught `ValueError` instead of rejecting the input through any
schema, refuting the claim that every handler validates its input via a
serializer before acting. -/
theorem C3_counterexample :
    SearchAutoCompleteView_get [("term", "a"), ("limit", "x")] (fun _ _ => []) =
      .uncaught "ValueError" := by
  decide

/-- C3 (amended): handlers with a declared serializer reject an invalid
body as a bad request before their action runs (`BulkEditView.post`
shown), but `SearchAutoCompleteView.get`, `FilesAndFoldersViewSet.list`
and `DocumentViewSet.notes` act on raw request data: a missing `term`
is rejected ad hoc, a non-numeric `limit` or `page` raises an uncaught
exception, and a POST body without a `note` key is caught only by a
generic handler answering a success-status error body. -/
theorem C3_amended_validation :
    (∀ (α : Type) (e : String) (run : α → Except String Nat),
        BulkEditView_post (.error e) run = .badRequest e) ∧
    (∀ (params : List (String × String)) (f : String → Int → List String),
        pyLookup params "term" = none →
        SearchAutoCompleteView_get params f = .badRequest "Term required") ∧
    (∀ (params : List (String × String)) (f : String → Int → List String)
        (term s : String),
        pyLookup params "term" = some term → pyLookup params "limit" = some s →
        pyInt s = none →
        SearchAutoCompleteView_get params f = .uncaught "ValueError") ∧
    (∀ (db : DB) (params : List (String × String)) (s : String),
        pyLookup params "page" = some s → pyInt s = none →
        FilesAndFoldersViewSet_list db params = .uncaught "ValueError") ∧
    DocumentViewSet_notes exDb8 .post 1 1 [] [] 0 =
      .error200 "Error saving note, check logs for more detail." := by
  refine ⟨fun α e run => rfl, ?_, ?_, ?_, rfl⟩
  · intro params f hterm
    unfold SearchAutoCompleteView_get
    rw [hterm]
  · intro params f term s hterm hlimit hint
    unfold SearchAutoCompleteView_get
    rw [hterm, hlimit]
    dsimp only
    rw [hint]
  · intro db params s hpage hint
    unfold FilesAndFoldersViewSet_list
    have hpe : ffPage params = .error "ValueError" := by
      unfold ffPage
      rw [hpage]
      dsimp only
      rw [hint]
    rw [hpe]

/-- Witness for C3 (amended) at concrete requests: a missing term, a
non-numeric limit, and a non-numeric page. -/
theorem C3_amended_validation_witness :
    SearchAutoCompleteView_get [("limit", "3")] (fun _ _ => []) =
      .badRequest "Term required" ∧
    SearchAutoCompleteView_get [("term", "a"), ("limit", "zz")] (fun _ _ => []) =
      .uncaught "ValueError" ∧
    FilesAndFoldersViewSet_list exDb4 [("page", "abc")] = .uncaught "ValueError" := by
  exact ⟨C3_amended_validation.2.1 [("limit", "3")] (fun _ _ => []) rfl,
         C3_amended_validation.2.2.1 [("term", "a"), ("limit", "zz")] (fun _ _ => [])
           "a" "zz" rfl rfl rfl,
         C3_amended_validation.2.2.2.1 exDb4 [("page", "abc")] "abc" rfl rfl⟩

/-! ### SelectionDataView -/

/-- One entry of the selection-data response. -/
structure SelectionEntry where
  id : Nat
  document_count : Nat
  deriving Repr, DecidableEq

/-- The selection-data response. -/
structure SelectionResponse where
  selected_correspondents : List SelectionEntry
  selected_tags : List SelectionEntry
  selected_document_types : List SelectionEntry
  selected_storage_paths : List SelectionEntry
  deriving Repr, DecidableEq

/-- The annotated column
`Case(When(documents__id__in=ids, then=1), output_field=IntegerField())`
evaluated on one joined document row: 1 when the document is among the
submitted ids, `NULL` otherwise. -/
def caseWhenDocIn (ids : List Nat) (d : Document) : Option Nat :=
  if d.id ∈ ids then some 1 else none

/-- The `document_count` annotation for one entity: `COUNT` of the
`Case/When` column over the entity's joined document rows. -/
def selectionCount (ids : List Nat) (linked : Document → Bool) (docs : List Document) : Nat :=
  djangoCount ((docs.filter linked).map (caseWhenDocIn ids))

/-- `SelectionDataView.post` on the validated id list: every
correspondent, tag, document type and storage path in the database is
annotated with its `document_count` against the submitted ids. -/
def SelectionDataView_post (db : DB) (ids : List Nat) : SelectionResponse :=
  { selected_correspondents := db.correspondents.map (fun c =>
      { id := c.id,
        document_count := selectionCount ids (fun d => d.correspondent == some c.id) db.documents }),
    selected_tags := db.tags.map (fun t =>
      { id := t.id,
        document_count := selectionCount ids (fun d => t.id ∈ d.tags) db.documents }),
    selected_document_types := db.document_types.map (fun ty =>
      { id := ty.id,
        document_count := selectionCount ids (fun d => d.document_type == some ty.id) db.documents }),
    selected_storage_paths := db.storage_paths.map (fun sp =>
      { id := sp.id,
        document_count := selectionCount ids (fun d => d.storage_path == some sp.id) db.documents }) }

/-- Counting the non-`NULL` `Case/When` values over the linked rows is
counting the linked documents among the submitted ids. -/
theorem selectionCount_eq_filter_length (ids : List Nat) (linked : Document → Bool)
    (docs : List Document) :
    selectionCount ids linked docs =
      (docs.filter (fun d => linked d && decide (d.id ∈ ids))).length := by
  unfold selectionCount djangoCount caseWhenDocIn
  induction docs with
  | nil => rfl
  | cons d rest ih =>
    simp only [List.filterMap_map, Function.id_comp] at ih
    by_cases hl : linked d = true
    · by_cases hin : d.id ∈ ids
      · simp [List.filter_cons, hl, hin, ih]
      · simp [List.filter_cons, hl, hin, ih]
    · have hl2 : linked d = false := by rwa [Bool.not_eq_true] at hl
      simp [List.filter_cons, hl2, ih]

/-- C5: for every submitted id list, every correspondent, tag, document
type and storage path in the database appears in the selection-data
response with `document_count` equal to the number of documents from
the list linked to it (0 when none of the listed documents are linked
to it). -/
theorem C5_selection_counts (db : DB) (ids : List Nat) :
    (∀ c ∈ db.correspondents,
      ({ id := c.id,
         document_count := (db.documents.filter
           (fun d => d.correspondent == some c.id && decide (d.id ∈ ids))).length } : SelectionEntry)
        ∈ (SelectionDataView_post db ids).selected_correspondents) ∧
    (∀ t ∈ db.tags,
      ({ id := t.id,
         document_count := (db.documents.filter
           (fun d => decide (t.id ∈ d.tags) && decide (d.id ∈ ids))).length } : SelectionEntry)
        ∈ (SelectionDataView_post db ids).selected_tags) ∧
    (∀ ty ∈ db.document_types,
      ({ id := ty.id,
         document_count := (db.documents.filter
           (fun d => d.document_type == some ty.id && decide (d.id ∈ ids))).length } : SelectionEntry)
        ∈ (SelectionDataView_post db ids).selected_document_types) ∧
    (∀ sp ∈ db.storage_paths,
      ({ id := sp.id,
         document_count := (db.documents.filter
           (fun d => d.storage_path == some sp.id && decide (d.id ∈ ids))).length } : SelectionEntry)
        ∈ (SelectionDataView_post db ids).selected_storage_paths) := by
  refine ⟨fun c hc => ?_, fun t ht => ?_, fun ty hty => ?_, fun sp hsp => ?_⟩ <;>
    unfold SelectionDataView_post <;>
    rw [← selectionCount_eq_filter_length]
  · exact List.mem_map_of_mem _ hc
  · exact List.mem_map_of_mem _ ht
  · exact List.mem_map_of_mem _ hty
  · exact List.mem_map_of_mem _ hsp

/-- Example correspondent linked to documents. -/
def exC7 : Correspondent := { id := 7, name := "c" }

/-- Example correspondent linked to nothing. -/
def exC9 : Correspondent := { id := 9, name := "d" }

/-- Example tag. -/
def exTag3 : Tag := { id := 3, name := "t", is_inbox_tag := false }

/-- Example document type. -/
def exTy4 : DocumentType := { id := 4, name := "ty" }

/-- Example storage path. -/
def exSp5 : StoragePath := { id := 5, name := "s", path := "s" }

/-- A document linked to all the example entities. -/
def exDoc5a : Document :=
  { id := 1, correspondent := some 7, document_type := some 4,
    storage_path := some 5, tags := [3], created := 0,
    mime_type := "application/pdf", content := "",
    has_archive_version := false, storage_type_gpg := false,
    source_path := "a", archive_path := "", public_filename := "a",
    public_filename_archive := "a" }

/-- A second document, outside the submitted selection. -/
def exDoc5b : Document :=
  { id := 2, correspondent := some 7, document_type := none,
    storage_path := none, tags := [], created := 0,
    mime_type := "application/pdf", content := "",
    has_archive_version := false, storage_type_gpg := false,
    source_path := "b", archive_path := "", public_filename := "b",
    public_filename_archive := "b" }

/-- The selection-data example database. -/
def exDb5 : DB :=
  { documents := [exDoc5a, exDoc5b], tags := [exTag3],
    correspondents := [exC7, exC9], document_types := [exTy4],
    storage_paths := [exSp5], notes := [], users := [], tasks := [] }

/-- Witness for C5 at the submitted list `[1]`: each entity appears
with the count of selected documents linked to it, the unlinked
correspondent with count 0. -/
theorem C5_selection_counts_witness :
    ({ id := 7, document_count := 1 } : SelectionEntry)
      ∈ (SelectionDataView_post exDb5 [1]).selected_correspondents ∧
    ({ id := 9, document_count := 0 } : SelectionEntry)
      ∈ (SelectionDataView_post exDb5 [1]).selected_correspondents ∧
    ({ id := 3, document_count := 1 } : SelectionEntry)
      ∈ (SelectionDataView_post exDb5 [1]).selected_tags ∧
    ({ id := 4, document_count := 1 } : SelectionEntry)
      ∈ (SelectionDataView_post exDb5 [1]).selected_document_types ∧
    ({ id := 5, document_count := 1 } : SelectionEntry)
      ∈ (SelectionDataView_post exDb5 [1]).selected_storage_paths := by
  have h := C5_selection_counts exDb5 [1]
  exact ⟨h.1 exC7 (by decide), h.1 exC9 (by decide), h.2.1 exTag3 (by decide),
         h.2.2.1 exTy4 (by decide), h.2.2.2 exSp5 (by decide)⟩

/-! ### StatisticsView -/

/-- The inbox tags a document's tag join matches:
`tags__is_inbox_tag=True` joins one row per (document, inbox tag) pair. -/
def inboxMatches (tags : List Tag) (d : Document) : List Tag :=
  tags.filter (fun t => decide (t.id ∈ d.tags) && t.is_inbox_tag)

/-- The rows of `Document.objects.filter(tags__is_inbox_tag=True)`: one
copy of each document per inbox tag it carries. -/
def inboxRows (tags : List Tag) (docs : List Document) : List Document :=
  docs.flatMap (fun d => (inboxMatches tags d).map (fun _ => d))

/-- SQL `DISTINCT` over document rows (keyed by primary key), keeping
the first occurrence; `seen` accumulates the ids already emitted. -/
def sqlDistinctAux (seen : List Nat) : List Document → List Document
  | [] => []
  | d :: rest =>
    if d.id ∈ seen then sqlDistinctAux seen rest
    else d :: sqlDistinctAux (d.id :: seen) rest

/-- `.distinct()` on a document queryset. -/
def sqlDistinctDocs (rows : List Document) : List Document := sqlDistinctAux [] rows

/-- String de-duplication keeping first occurrences, for
`values('mime_type')` grouping. -/
def dedupKeepFirst (seen : List String) : List String → List String
  | [] => []
  | m :: rest =>
    if m ∈ seen then dedupKeepFirst seen rest
    else m :: dedupKeepFirst (m :: seen) rest

/-- `values('mime_type').annotate(mime_type_count=Count('mime_type'))
.order_by('-mime_type_count')`; ties keep grouping order, which SQL
leaves unspecified. -/
def mimeTypeCounts (docs : List Document) : List (String × Nat) :=
  let mimes := dedupKeepFirst [] (docs.map (fun d => d.mime_type))
  (sortByKey (fun mc => (mc.2 : Int))
    (mimes.map (fun m => (m, (docs.filter (fun d => d.mime_type == m)).length)))).reverse

/-- `annotate(characters=Length('content')).aggregate(Sum('characters'))`:
SQL `SUM` is `NULL` over no rows. -/
def characterCountAgg (docs : List Document) : Option Int :=
  if docs.isEmpty then none
  else some (docs.foldl (fun a d => a + (d.content.length : Int)) 0)

/-- The statistics response.  `document_file_type_counts` is `none`
when there are no documents: the source puts the literal integer 0 in
that slot instead of a grouping. -/
structure StatsResponse where
  documents_total : Nat
  documents_inbox : Option Nat
  inbox_tag : Option Nat
  document_file_type_counts : Option (List (String × Nat))
  character_count : Option Int
  deriving Repr, DecidableEq

/-- `StatisticsView.get`. -/
def StatisticsView_get (db : DB) : StatsResponse :=
  let documents_total := db.documents.length
  let inbox_tag := db.tags.filter (fun t => t.is_inbox_tag)
  let documents_inbox :=
    if inbox_tag.isEmpty then none
    else some (sqlDistinctDocs (inboxRows db.tags db.documents)).length
  { documents_total := documents_total
    documents_inbox := documents_inbox
    inbox_tag := (inbox_tag.head?).map (fun t => t.id)
    document_file_type_counts :=
      if documents_total > 0 then some (mimeTypeCounts db.documents) else none
    character_count := characterCountAgg db.documents }

theorem sqlDistinctAux_skip (seen : List Nat) (d : Document) (hd : d.id ∈ seen) :
    ∀ (ts : List Tag) (l : List Document),
      sqlDistinctAux seen (ts.map (fun _ => d) ++ l) = sqlDistinctAux seen l := by
  intro ts
  induction ts with
  | nil => intro l; rfl
  | cons t ts ih =>
    intro l
    rw [List.map_cons, List.cons_append, sqlDistinctAux, if_pos hd]
    exact ih l

theorem sqlDistinctAux_inboxRows (tags : List Tag) :
    ∀ (docs : List Document) (seen : List Nat),
      (∀ d ∈ docs, d.id ∉ seen) → (docs.map (fun d => d.id)).Nodup →
      sqlDistinctAux seen (inboxRows tags docs) =
        docs.filter (fun d => !(inboxMatches tags d).isEmpty) := by
  intro docs
  induction docs with
  | nil => intro seen _ _; rfl
  | cons d rest ih =>
    intro seen hseen hnodup
    rw [List.map_cons, List.nodup_cons] at hnodup
    have hcons : inboxRows tags (d :: rest) =
        (inboxMatches tags d).map (fun _ => d) ++ inboxRows tags rest := by
      rw [inboxRows, inboxRows, List.flatMap_cons]
    rw [hcons, List.filter_cons]
    cases hm : inboxMatches tags d with
    | nil =>
      rw [List.map_nil, List.nil_append, if_neg (by decide)]
      exact ih seen (fun x hx => hseen x (List.mem_cons_of_mem d hx)) hnodup.2
    | cons t ts =>
      rw [List.map_cons, List.cons_append, sqlDistinctAux,
        if_neg (hseen d (List.mem_cons_self d rest)),
        if_pos (show (!(t :: ts).isEmpty) = true from rfl),
        sqlDistinctAux_skip (d.id :: seen) d (List.mem_cons_self d.id seen) ts
          (inboxRows tags rest)]
      have hrest : ∀ x ∈ rest, x.id ∉ d.id :: seen := by
        intro x hx
        rw [List.mem_cons]
        rintro (hxd | hxs)
        · exact hnodup.1 (hxd ▸ List.mem_map_of_mem (fun d => d.id) hx)
        · exact hseen x (List.mem_cons_of_mem d hx) hxs
      rw [ih (d.id :: seen) hrest hnodup.2]

/-- An empty filter means no matching element. -/
theorem filter_isEmpty_eq_not_any (p : α → Bool) (l : List α) :
    (l.filter p).isEmpty = !(l.any p) := by
  induction l with
  | nil => rfl
  | cons x xs ih =>
    by_cases h : p x = true
    · simp [List.filter_cons, h]
    · have h2 : p x = false := by rwa [Bool.not_eq_true] at h
      simp [List.filter_cons, h2, ih]

/-- C6: `StatisticsView` reports `documents_total` as the number of
stored documents and `documents_inbox` as the number of distinct
documents carrying at least one inbox tag when an inbox tag exists, and
null when none does.  The distinct count is read off a database whose
document primary keys do not repeat. -/
theorem C6_statistics (db : DB)
    (h : (db.documents.map (fun d => d.id)).Nodup) :
    (StatisticsView_get db).documents_total = db.documents.length ∧
    (StatisticsView_get db).documents_inbox =
      (if db.tags.any (fun t => t.is_inbox_tag) then
        some ((db.documents.filter
          (fun d => db.tags.any (fun t => decide (t.id ∈ d.tags) && t.is_inbox_tag))).length)
      else none) := by
  refine ⟨rfl, ?_⟩
  unfold StatisticsView_get
  dsimp only
  rw [filter_isEmpty_eq_not_any]
  have hpred : (fun d => !(inboxMatches db.tags d).isEmpty)
      = (fun d : Document => db.tags.any (fun t => decide (t.id ∈ d.tags) && t.is_inbox_tag)) := by
    funext d
    rw [inboxMatches, filter_isEmpty_eq_not_any, Bool.not_not]
  by_cases hany : db.tags.any (fun t => t.is_inbox_tag) = true
  · rw [hany, if_neg (by simp), if_pos rfl, sqlDistinctDocs,
      sqlDistinctAux_inboxRows db.tags db.documents []
        (fun d _ => List.not_mem_nil d.id) h, hpred]
  · have hany2 : db.tags.any (fun t => t.is_inbox_tag) = false := by
      rwa [Bool.not_eq_true] at hany
    rw [hany2, if_pos (by simp), if_neg Bool.false_ne_true]

/-- The example inbox tag. -/
def exTagIn : Tag := { id := 1, name := "inbox", is_inbox_tag := true }

/-- An example ordinary tag. -/
def exTagOut : Tag := { id := 2, name := "misc", is_inbox_tag := false }

/-- A document carrying the inbox tag twice over its join (inbox and
ordinary tags). -/
def exDoc6a : Document :=
  { id := 1, correspondent := none, document_type := none,
    storage_path := none, tags := [1, 2], created := 0,
    mime_type := "application/pdf", content := "ab",
    has_archive_version := false, storage_type_gpg := false,
    source_path := "a", archive_path := "", public_filename := "a",
    public_filename_archive := "a" }

/-- A second document with the inbox tag. -/
def exDoc6b : Document :=
  { id := 2, correspondent := none, document_type := none,
    storage_path := none, tags := [1], created := 0,
    mime_type := "application/pdf", content := "c",
    has_archive_version := false, storage_type_gpg := false,
    source_path := "b", archive_path := "", public_filename := "b",
    public_filename_archive := "b" }

/-- A document with no tags. -/
def exDoc6c : Document :=
  { id := 3, correspondent := none, document_type := none,
    storage_path := none, tags := [], created := 0,
    mime_type := "text/plain", content := "",
    has_archive_version := false, storage_type_gpg := false,
    source_path := "c", archive_path := "", public_filename := "c",
    public_filename_archive := "c" }

/-- The statistics example database. -/
def exDb6 : DB :=
  { documents := [exDoc6a, exDoc6b, exDoc6c], tags := [exTagIn, exTagOut],
    correspondents := [], document_types := [], storage_paths := [],
    notes := [], users := [], tasks := [] }

/-- Witness for C6: three stored documents, two of them in the inbox. -/
theorem C6_statistics_witness :
    (StatisticsView_get exDb6).documents_total = 3 ∧
    (StatisticsView_get exDb6).documents_inbox = some 2 := by
  have h := C6_statistics exDb6 (by decide)
  exact ⟨h.1.trans (by decide), h.2.trans (by decide)⟩

/-! ### Authentication and permission wiring -/

/-- The permission classes named in the module, plus the framework
fallback used by a view that declares none. -/
inductive PermClass where
  | isAuthenticated
  | paperlessObjectPermissions
  | paperlessAdminPermissions
  | allowAny
  deriving Repr, DecidableEq

/-- Modelled from the spec: the principal behind a request.  The
`documents.permissions` classes and the admin check live outside the
supplied source; the spec fixes only that a permission-denied principal
is rejected (403), so each class is modelled as a predicate on the
principal. -/
structure Principal where
  authenticated : Bool
  has_object_permission : Bool
  is_admin : Bool
  deriving Repr, DecidableEq

/-- Whether one permission class admits the principal. -/
def has_permission (p : Principal) : PermClass → Bool
  | .isAuthenticated => p.authenticated
  | .paperlessObjectPermissions => p.has_object_permission
  | .paperlessAdminPermissions => p.is_admin
  | .allowAny => true

/-- The API views the module defines (`IndexView` is a plain template
view, not an API view). -/
inductive ApiView where
  | correspondentViewSet
  | tagViewSet
  | documentTypeViewSet
  | documentViewSet
  | unifiedSearchViewSet
  | logViewSet
  | savedViewViewSet
  | bulkEditView
  | postDocumentView
  | selectionDataView
  | searchAutoCompleteView
  | statisticsView
  | bulkDownloadView
  | remoteVersionView
  | storagePathViewSet
  | filesAndFoldersViewSet
  | uiSettingsView
  | tasksViewSet
  | acknowledgeTasksView
  deriving Repr, DecidableEq

/-- Modelled from the spec: a view with no declared
`permission_classes` falls back to the framework default.  The
repository's settings module is not in the supplied source, and the
framework's own default permission admits any principal. -/
def defaultPermissionClasses : List PermClass := [.allowAny]

/-- The `permission_classes` tuple each view class declares in the
module; `RemoteVersionView` declares none. -/
def permission_classes : ApiView → List PermClass
  | .correspondentViewSet => [.isAuthenticated, .paperlessObjectPermissions]
  | .tagViewSet => [.isAuthenticated, .paperlessObjectPermissions]
  | .documentTypeViewSet => [.isAuthenticated, .paperlessObjectPermissions]
  | .documentViewSet => [.isAuthenticated, .paperlessObjectPermissions]
  | .unifiedSearchViewSet => [.isAuthenticated, .paperlessObjectPermissions]
  | .logViewSet => [.isAuthenticated, .paperlessAdminPermissions]
  | .savedViewViewSet => [.isAuthenticated, .paperlessObjectPermissions]
  | .bulkEditView => [.isAuthenticated]
  | .postDocumentView => [.isAuthenticated]
  | .selectionDataView => [.isAuthenticated]
  | .searchAutoCompleteView => [.isAuthenticated]
  | .statisticsView => [.isAuthenticated]
  | .bulkDownloadView => [.isAuthenticated]
  | .remoteVersionView => defaultPermissionClasses
  | .storagePathViewSet => [.isAuthenticated, .paperlessObjectPermissions]
  | .filesAndFoldersViewSet => [.isAuthenticated]
  | .uiSettingsView => [.isAuthenticated]
  | .tasksViewSet => [.isAuthenticated]
  | .acknowledgeTasksView => [.isAuthenticated]

/-- The framework runs every declared permission class before the
handler; the handler body is reached only when all pass. -/
def reaches_handler (p : Principal) (v : ApiView) : Bool :=
  (permission_classes v).all (has_permission p)

/-- A principal that is neither authenticated nor privileged. -/
def anonPrincipal : Principal :=
  { authenticated := false, has_object_permission := false, is_admin := false }

/-- C7 (counterexample): `RemoteVersionView` declares no permission
classes, so under the framework default an unauthenticated principal
reaches its handler body — the claim that every API view in the module
rejects unauthenticated requests fails on it. -/
theorem C7_counterexample :
    reaches_handler anonPrincipal .remoteVersionView = true := by decide

/-- C7 (amended): every API view in the module except
`RemoteVersionView` declares `IsAuthenticated` (the log view also the
admin check, the model viewsets also object permissions), so an
unauthenticated principal never reaches their handler bodies; the admin
gate of `LogViewSet` also rejects an authenticated non-admin.
`RemoteVersionView` declares nothing and is reachable without
authentication. -/
theorem C7_amended_permission_gate :
    (∀ (v : ApiView) (p : Principal), v ≠ .remoteVersionView →
        p.authenticated = false → reaches_handler p v = false) ∧
    (∀ p : Principal, p.is_admin = false →
        reaches_handler p .logViewSet = false) ∧
    reaches_handler anonPrincipal .remoteVersionView = true := by
  refine ⟨?_, ?_, by decide⟩
  · intro v p hv hp
    cases v <;>
      first
      | exact absurd rfl hv
      | simp [reaches_handler, permission_classes, has_permission, hp]
  · intro p hp
    simp [reaches_handler, permission_classes, has_permission, hp]

/-- Witness for C7 (amended): the anonymous principal is turned away
from the statistics endpoint, and an authenticated non-admin from the
log endpoint. -/
theorem C7_amended_permission_gate_witness :
    reaches_handler anonPrincipal .statisticsView = false ∧
    reaches_handler
      { authenticated := true, has_object_permission := true, is_admin := false }
      .logViewSet = false := by
  exact ⟨C7_amended_permission_gate.1 .statisticsView anonPrincipal (by decide) rfl,
         C7_amended_permission_gate.2.1
           { authenticated := true, has_object_permission := true, is_admin := false } rfl⟩
